import Mathlib

/-!
Shallow embedding of the patching-tracker dashboard core (src/script.js):
severity normalization for the two advisory shapes (OSV and NVD), fixed-version
extraction, lifecycle status resolution, and the batched aggregation driver.
JavaScript dynamic values that the code probes with truthiness checks are
modelled by `JVal` (primitive JSON values); fields that the code only ever
reads as strings or arrays are given the corresponding typed `Option` shape.
JS numbers are modelled as exact rationals; the non-finite `Infinity` values
and hexadecimal numeric literals are outside the model (CVSS scores are finite
decimals).  Stateful network interaction is modelled by outcome parameters,
and a JS exception is an `Except.error`.  DOM rendering is an external
collaborator and is not part of the model.
-/

namespace PatchTracker

/-- Primitive JavaScript value as it appears in a decoded JSON field. -/
inductive JVal where
  | jundef
  | jnull
  | jbool (b : Bool)
  | jnum (q : ℚ)
  | jnan
  | jstr (s : String)
deriving DecidableEq

/-- JavaScript truthiness of a primitive value. -/
def JVal.truthy : JVal → Bool
  | .jundef => false
  | .jnull => false
  | .jbool b => b
  | .jnum q => decide (q ≠ 0)
  | .jnan => false
  | .jstr s => decide (s ≠ "")

/-- JavaScript `a || b` on primitive values. -/
def jsOr (a b : JVal) : JVal := if a.truthy then a else b

/-- Whitespace recognised when trimming numeric strings. -/
def isWsChar (c : Char) : Bool := c = ' ' || c = '\t' || c = '\n' || c = '\r'

/-- Value of a list of decimal digit characters. -/
def digitsVal (cs : List Char) : Nat :=
  cs.foldl (fun a c => a * 10 + (c.toNat - '0'.toNat)) 0

/-- Split an optional leading sign, returning the sign and the rest. -/
def signSplit (cs : List Char) : Int × List Char :=
  match cs with
  | '-' :: rest => (-1, rest)
  | '+' :: rest => (1, rest)
  | _ => (1, cs)

/-- Exponent part after the `e`: optional sign then digits; an invalid
exponent part contributes a factor of one, as in JS `parseFloat`. -/
def parseExpPart (cs : List Char) : Int :=
  let (sg, cs1) := signSplit cs
  let ds := cs1.takeWhile Char.isDigit
  if ds.isEmpty then 0 else sg * (digitsVal ds : Int)

/-- JS `parseFloat` on a character list: skip leading whitespace, read the
longest decimal-literal prefix, ignore trailing garbage; `none` is `NaN`. -/
def parseFloatChars (cs : List Char) : Option ℚ :=
  let cs0 := cs.dropWhile isWsChar
  let (sg, cs1) := signSplit cs0
  let intPart := cs1.takeWhile Char.isDigit
  let cs2 := cs1.dropWhile Char.isDigit
  let (fracPart, cs3) :=
    match cs2 with
    | '.' :: rest => (rest.takeWhile Char.isDigit, rest.dropWhile Char.isDigit)
    | _ => ([], cs2)
  if intPart.isEmpty && fracPart.isEmpty then none
  else
    let mantissa : ℚ := (digitsVal intPart : ℚ) + (digitsVal fracPart : ℚ) / (10 ^ fracPart.length : ℚ)
    let expVal : Int :=
      match cs3 with
      | e :: rest => if e = 'e' || e = 'E' then parseExpPart rest else 0
      | [] => 0
    some ((sg : ℚ) * mantissa * (10 : ℚ) ^ expVal)

/-- JS `parseFloat` applied to a field value: numbers pass through, strings
are parsed by prefix, everything else stringifies to a non-numeric word and
gives `NaN` (`none`). -/
def parseFloat : JVal → Option ℚ
  | .jstr s => parseFloatChars s.data
  | .jnum q => some q
  | _ => none

/-- JS `Number(string)`: trim both ends, empty means zero, otherwise the whole
string must be one decimal literal; `none` is `NaN`. -/
def toNumberChars (cs : List Char) : Option ℚ :=
  let t := ((cs.dropWhile isWsChar).reverse.dropWhile isWsChar).reverse
  if t.isEmpty then some 0
  else
    let (sg, cs1) := signSplit t
    let intPart := cs1.takeWhile Char.isDigit
    let cs2 := cs1.dropWhile Char.isDigit
    let (fracPart, cs3) :=
      match cs2 with
      | '.' :: rest => (rest.takeWhile Char.isDigit, rest.dropWhile Char.isDigit)
      | _ => ([], cs2)
    if intPart.isEmpty && fracPart.isEmpty then none
    else
      let mantissa : ℚ := (digitsVal intPart : ℚ) + (digitsVal fracPart : ℚ) / (10 ^ fracPart.length : ℚ)
      match cs3 with
      | [] => some ((sg : ℚ) * mantissa)
      | e :: rest =>
        if e = 'e' || e = 'E' then
          let (es, rest2) := signSplit rest
          let ds := rest2.takeWhile Char.isDigit
          let rest3 := rest2.dropWhile Char.isDigit
          if ds.isEmpty || !rest3.isEmpty then none
          else some ((sg : ℚ) * mantissa * (10 : ℚ) ^ (es * (digitsVal ds : Int)))
        else none

/-- JS `ToNumber` coercion of a primitive value, used by `>=`. -/
def toNumber : JVal → Option ℚ
  | .jundef => none
  | .jnull => some 0
  | .jbool b => some (if b then 1 else 0)
  | .jnum q => some q
  | .jnan => none
  | .jstr s => toNumberChars s.data

/-- JS `v >= q` for a field value against a number literal: coerce `v` with
`ToNumber`; any comparison against `NaN` is false. -/
def jsGE (v : JVal) (q : ℚ) : Bool :=
  match toNumber v with
  | some x => decide (q ≤ x)
  | none => false

/-- JS `String.prototype.trim` (the whitespace classes of the model). -/
def jsTrim (s : String) : String :=
  String.mk (((s.data.dropWhile isWsChar).reverse.dropWhile isWsChar).reverse)

/-- JS `String.prototype.toLowerCase` (ASCII case mapping of the model). -/
def jsToLower (s : String) : String :=
  String.mk (s.data.map Char.toLower)

/-- Does `needle` occur as a contiguous run inside `hay`? -/
def listInfix (needle : List Char) : List Char → Bool
  | [] => needle.isEmpty
  | c :: rest => needle.isPrefixOf (c :: rest) || listInfix needle rest

/-- JS `String.prototype.includes`. -/
def containsSubstr (hay needle : String) : Bool :=
  listInfix needle.data hay.data

/-- Truthiness of an optional string field (absent or empty is falsy). -/
def strTruthy : Option String → Bool
  | some s => decide (s ≠ "")
  | none => false

/-! ## Shape A: OSV advisory records -/

/-- Vendor-specific map probed by `getSeverityLabel`; absent keys are `jundef`. -/
structure DbSpecific where
  ubuntu_priority : JVal
  priority : JVal
  severity : JVal
  level : JVal
  cvss_score : JVal
deriving DecidableEq

/-- One entry of an OSV `severity` list. -/
structure SeverityEntry where
  type : Option String
  score : JVal
deriving DecidableEq

/-- One entry of a range's `events` list. -/
structure RangeEvent where
  fixed : Option String
deriving DecidableEq

/-- One entry of an affected package's `ranges` list. -/
structure VulnRange where
  events : Option (List RangeEvent)
deriving DecidableEq

/-- One entry of an OSV `affected` list. -/
structure AffectedEntry where
  ranges : Option (List VulnRange)
deriving DecidableEq

/-- An OSV advisory record (the fields the core reads). -/
structure OSVVuln where
  database_specific : Option DbSpecific
  severity : Option (List SeverityEntry)
  affected : Option (List AffectedEntry)
deriving DecidableEq

/-- `database_specific` map with absent keys. -/
def emptyDbSpecific : DbSpecific := ⟨.jundef, .jundef, .jundef, .jundef, .jundef⟩

/-- `vuln.database_specific || {}`. -/
def dbSpecOf (vuln : OSVVuln) : DbSpecific :=
  vuln.database_specific.getD emptyDbSpecific

/-- `dbSpec.ubuntu_priority || dbSpec.priority || dbSpec.severity || dbSpec.level`. -/
def firstPriority (vuln : OSVVuln) : JVal :=
  jsOr (dbSpecOf vuln).ubuntu_priority
    (jsOr (dbSpecOf vuln).priority
      (jsOr (dbSpecOf vuln).severity (dbSpecOf vuln).level))

/-- Label branch of `getSeverityLabel`: if the selected priority is a truthy
string, trim and lowercase it and classify by substring. -/
def priorityLabel (p : JVal) : Option String :=
  match p with
  | .jstr s =>
    if s = "" then none
    else
      let label := jsToLower (jsTrim s)
      if containsSubstr label "crit" then some "Critical"
      else if containsSubstr label "high" then some "High"
      else if containsSubstr label "med" then some "Medium"
      else if containsSubstr label "low" then some "Low"
      else none
  | _ => none

/-- `vuln.severity?.find(s => s.type === 'CVSS_V3' || s.type === 'CVSS_V2')`. -/
def osvCvssEntry (vuln : OSVVuln) : Option SeverityEntry :=
  vuln.severity.bind
    (List.find? fun s => s.type == some "CVSS_V3" || s.type == some "CVSS_V2")

/-- `cvssObj ? parseFloat(cvssObj.score) : parseFloat(dbSpec.cvss_score)`. -/
def osvScore (vuln : OSVVuln) : Option ℚ :=
  match osvCvssEntry vuln with
  | some o => parseFloat o.score
  | none => parseFloat (dbSpecOf vuln).cvss_score

/-- Four-tier thresholding of a parsed score; `NaN` gives `Unknown`. -/
def classifyScore : Option ℚ → String
  | some sc =>
    if (9 : ℚ) ≤ sc then "Critical"
    else if (7 : ℚ) ≤ sc then "High"
    else if (4 : ℚ) ≤ sc then "Medium"
    else "Low"
  | none => "Unknown"

/-- Severity parser for OSV (`getSeverityLabel` of src/script.js). -/
def getSeverityLabel (vuln : OSVVuln) : String :=
  match priorityLabel (firstPriority vuln) with
  | some r => r
  | none => classifyScore (osvScore vuln)

/-- `range.events?.find(e => e.fixed)` and the returned `fixed` field. -/
def scanRanges : List VulnRange → Option String
  | [] => none
  | r :: rest =>
    match (r.events.getD []).find? (fun e => strTruthy e.fixed) with
    | some e => e.fixed
    | none => scanRanges rest

/-- Outer loop of `getFixedVersion` over the `affected` entries. -/
def scanAffected : List AffectedEntry → Option String
  | [] => none
  | a :: rest =>
    match a.ranges with
    | none => scanAffected rest
    | some rs =>
      match scanRanges rs with
      | some s => some s
      | none => scanAffected rest

/-- Fixed-version extraction for OSV (`getFixedVersion` of src/script.js). -/
def getFixedVersion (vuln : OSVVuln) : String :=
  match vuln.affected with
  | none => "None"
  | some entries =>
    match scanAffected entries with
    | some s => s
    | none => "Not Fixed"

/-! ## Shape B: NVD CVE records -/

/-- The scored data inside one CVSS metric entry. -/
structure CvssData where
  baseSeverity : Option String
  baseScore : JVal
deriving DecidableEq

/-- One entry of an NVD metrics list. -/
structure CvssMetric where
  cvssData : Option CvssData
  baseSeverity : Option String
deriving DecidableEq

/-- The `metrics` map of a CVE, keyed by the three known schemes. -/
structure CveMetrics where
  cvssMetricV31 : Option (List CvssMetric)
  cvssMetricV30 : Option (List CvssMetric)
  cvssMetricV2 : Option (List CvssMetric)
deriving DecidableEq

/-- One entry of a node's `cpeMatch` list. -/
structure CpeMatch where
  versionEndExcluding : Option String
deriving DecidableEq

/-- One entry of a configuration's `nodes` list. -/
structure CveConfigNode where
  cpeMatch : Option (List CpeMatch)
deriving DecidableEq

/-- One entry of a CVE's `configurations` list. -/
structure CveConfig where
  nodes : Option (List CveConfigNode)
deriving DecidableEq

/-- An NVD CVE record (the fields the core reads). -/
structure Cve where
  metrics : Option CveMetrics
  configurations : Option (List CveConfig)
deriving DecidableEq

/-- `cve.metrics?.cvssMetricV31?.[0] || cve.metrics?.cvssMetricV30?.[0] ||
cve.metrics?.cvssMetricV2?.[0]`. -/
def pickMetric (cve : Cve) : Option CvssMetric :=
  ((cve.metrics.bind CveMetrics.cvssMetricV31).bind List.head?) <|>
    ((cve.metrics.bind CveMetrics.cvssMetricV30).bind List.head?) <|>
      ((cve.metrics.bind CveMetrics.cvssMetricV2).bind List.head?)

/-- `metrics?.cvssData?.baseSeverity || metrics?.baseSeverity`, kept only when
truthy (the `if (label)` guard). -/
def nvdLabel (cve : Cve) : Option String :=
  let m := pickMetric cve
  let l1 := m.bind fun mm => mm.cvssData.bind CvssData.baseSeverity
  let l2 := m.bind CvssMetric.baseSeverity
  let l := if strTruthy l1 then l1 else l2
  if strTruthy l then l else none

/-- `l.charAt(0).toUpperCase() + l.slice(1)`. -/
def capitalizeFirst (s : String) : String :=
  match s.data with
  | [] => ""
  | c :: cs => String.mk (Char.toUpper c :: cs)

/-- `metrics?.cvssData?.baseScore`, `jundef` when the chain breaks. -/
def nvdScore (cve : Cve) : JVal :=
  ((pickMetric cve).bind fun m => m.cvssData.map CvssData.baseScore).getD JVal.jundef

/-- Severity parser for NVD (`getNVDSeverity` of src/script.js). -/
def getNVDSeverity (cve : Cve) : String :=
  match nvdLabel cve with
  | some l => capitalizeFirst (jsToLower l)
  | none =>
    let score := nvdScore cve
    if score ≠ JVal.jundef ∧ score ≠ JVal.jnull then
      if jsGE score 9 then "Critical"
      else if jsGE score 7 then "High"
      else if jsGE score 4 then "Medium"
      else "Low"
    else "Unknown"

/-- Inner loop of `getNVDFixedVersion` over a node's `cpeMatch` list:
return the first truthy `versionEndExcluding`. -/
def scanCpe : List CpeMatch → Option String
  | [] => none
  | m :: rest =>
    match m.versionEndExcluding with
    | some s => if s = "" then scanCpe rest else some s
    | none => scanCpe rest

/-- Loop of `getNVDFixedVersion` over a configuration's `nodes` list;
a node with no `cpeMatch` field is skipped. -/
def scanNodes : List CveConfigNode → Option String
  | [] => none
  | n :: rest =>
    match n.cpeMatch with
    | none => scanNodes rest
    | some ms =>
      match scanCpe ms with
      | some s => some s
      | none => scanNodes rest

/-- Outer loop of `getNVDFixedVersion`: iterating `config.nodes` throws a
`TypeError` when the `nodes` field is absent (`for (const node of
config.nodes)` has no guard). -/
def scanConfigs : List CveConfig → Except Unit (Option String)
  | [] => .ok none
  | c :: rest =>
    match c.nodes with
    | none => .error ()
    | some ns =>
      match scanNodes ns with
      | some s => .ok (some s)
      | none => scanConfigs rest

/-- Fixed-version extraction for NVD (`getNVDFixedVersion` of src/script.js);
`Except.error` models a thrown exception. -/
def getNVDFixedVersion (cve : Cve) : Except Unit String :=
  match cve.configurations with
  | none => .ok "Not Fixed"
  | some configs =>
    match scanConfigs configs with
    | .error e => .error e
    | .ok (some s) => .ok s
    | .ok none => .ok "Check NVD"

/-! ## Lifecycle records and status resolution -/

/-- One release of an endoflife.date product record.  The `isEol` flag is
read only by truthiness, so an absent flag coincides with `false`. -/
structure Release where
  name : String
  releaseDate : String
  eolFrom : Option String
  isEol : Bool
deriving DecidableEq

/-- The `result` object of a lifecycle response. -/
structure LifeProduct where
  category : String
  label : String
  releases : List Release
deriving DecidableEq

/-- `calculateDaysRemaining` of src/script.js.  Date parsing and the current
instant are environment parameters, both in milliseconds since the epoch;
a falsy date string (absent or empty) gives `null`. -/
def calculateDaysRemaining (parseDate : String → ℚ) (now : ℚ) : Option String → Option Int
  | none => none
  | some s => if s = "" then none else some ⌈(parseDate s - now) / (86400000 : ℚ)⌉

/-- The status triple computed per tool in `initDashboard`. -/
structure StatusResult where
  statusText : String
  statusClass : String
  daysUntilEol : Option Int
deriving DecidableEq

/-- Lifecycle status resolution (lines 213-225 of src/script.js): exact-name
release lookup, then text and CSS classification from `isEol` and the
remaining-day count. -/
def resolveStatus (parseDate : String → ℚ) (now : ℚ)
    (releases : List Release) (current : String) : StatusResult :=
  match releases.find? (fun r => r.name == current) with
  | none => ⟨"Version Unknown", "status-neutral", none⟩
  | some cyc =>
    match calculateDaysRemaining parseDate now cyc.eolFrom with
    | none =>
      if cyc.isEol then ⟨"End of Life", "status-eol", none⟩
      else ⟨"Maintained", "status-active", none⟩
    | some d =>
      if cyc.isEol then ⟨"End of Life", "status-eol", some d⟩
      else if d ≤ 90 then ⟨s!"EOL in {d} Days", "status-warning", some d⟩
      else ⟨"Maintained", "status-active", some d⟩

/-! ## Aggregation driver -/

/-- One configured tool; `current` is the installed version already in its
string form (the code always matches and sends `current.toString()`). -/
structure ToolConfig where
  name : String
  current : String
deriving DecidableEq

/-- `BATCH_SIZE` of src/script.js. -/
def BATCH_SIZE : Nat := 5

/-- Network outcome of the lifecycle fetch for one tool: a decoded body,
a non-ok response, or a thrown fetch/decode error. -/
inductive LifeNet where
  | okBody (p : LifeProduct)
  | notOk
  | threw
deriving DecidableEq

/-- Network outcome of the OSV query: a parsed body (whose `vulns` field may
be absent), or a thrown fetch/decode error. -/
inductive OSVNet where
  | parsed (vulns : Option (List OSVVuln))
  | threw

/-- Network outcome of the NVD query: an ok decoded body (whose
`vulnerabilities` field may be absent), a non-ok response, or a throw. -/
inductive NVDNet where
  | okBody (vulnerabilities : Option (List Cve))
  | notOk
  | threw

/-- Result of an advisory fetch as seen by the driver: a records array, or
the `'Err'` sentinel string. -/
inductive AdvResult (α : Type) where
  | records (l : List α)
  | err
deriving DecidableEq

/-- `Array.isArray(x) && x.length > 0`. -/
def vulnsFound {α : Type} : AdvResult α → Bool
  | .records l => decide (0 < l.length)
  | .err => false

/-- Length of the records array, zero on the sentinel. -/
def vulnsCount {α : Type} : AdvResult α → Nat
  | .records l => l.length
  | .err => 0

/-- `fetchOSVVulnerabilities` of src/script.js: a falsy version short-circuits
to an empty array; any throw inside the `try` returns the `'Err'` sentinel. -/
def fetchOSVVulnerabilities (version : String) (net : OSVNet) : AdvResult OSVVuln :=
  if version = "" then .records []
  else
    match net with
    | .parsed vs => .records (vs.getD [])
    | .threw => .err

/-- `fetchNVDVulnerabilities` of src/script.js: falsy version gives an empty
array; a non-ok response or a throw gives the `'Err'` sentinel. -/
def fetchNVDVulnerabilities (version : String) (net : NVDNet) : AdvResult Cve :=
  if version = "" then .records []
  else
    match net with
    | .okBody vs => .records (vs.getD [])
    | .notOk => .err
    | .threw => .err

/-- The lifecycle fetch line of `initDashboard`:
`fetch(url).then(r => r.ok ? r.json() : { error: true })`.  The outer
`Except` is a rejected promise (thrown at the batch `await`); the inner
`Except` is the `{ error: true }` sentinel checked per tool. -/
def fetchLifecycle : LifeNet → Except Unit (Except Unit LifeProduct)
  | .okBody p => .ok (.ok p)
  | .notOk => .ok (.error ())
  | .threw => .error ()

/-- Per-tool network outcomes supplied by the environment. -/
structure ToolNet where
  life : LifeNet
  osv : OSVNet
  nvd : NVDNet

/-- The observable fields of one emitted table row. -/
structure Row where
  name : String
  status : StatusResult
  osvShown : Nat
  nvdShown : Nat
  hasAnyVulns : Bool
deriving DecidableEq

/-- Row construction for one tool (the `results.forEach` body): a lifecycle
error sentinel skips the tool; otherwise the status triple, shown advisory
counts and the vulnerability flag are derived. -/
def processTool (parseDate : String → ℚ) (now : ℚ) (item : ToolConfig)
    (lifecycle : Except Unit LifeProduct)
    (osvVulns : AdvResult OSVVuln) (nvdVulns : AdvResult Cve) : Option Row :=
  match lifecycle with
  | .error _ => none
  | .ok product =>
    let st := resolveStatus parseDate now product.releases item.current
    let osvFound := vulnsFound osvVulns
    let nvdFound := vulnsFound nvdVulns
    some ⟨item.name, st,
      (if osvFound then vulnsCount osvVulns else 0),
      (if nvdFound then vulnsCount nvdVulns else 0),
      osvFound || nvdFound⟩

/-- One batch's `Promise.all(batch.map(...))`: each tool's lifecycle fetch is
awaited, then its two advisory fetches; a thrown lifecycle fetch rejects the
whole batch.  Results keep the captured batch order. -/
def runBatchResults (env : ToolConfig → ToolNet) :
    List ToolConfig →
      Except Unit (List (ToolConfig × Except Unit LifeProduct × AdvResult OSVVuln × AdvResult Cve))
  | [] => .ok []
  | t :: rest =>
    match fetchLifecycle (env t).life with
    | .error e => .error e
    | .ok l =>
      match runBatchResults env rest with
      | .error e => .error e
      | .ok rs =>
        .ok ((t, l, fetchOSVVulnerabilities t.current (env t).osv,
              fetchNVDVulnerabilities t.current (env t).nvd) :: rs)

/-- Size-`n` chunks of a list, with the list length as structural fuel. -/
def chunksAux {α : Type} (fuel n : Nat) (l : List α) : List (List α) :=
  match fuel, l with
  | _, [] => []
  | 0, _ :: _ => []
  | f + 1, x :: xs => ((x :: xs).take n) :: chunksAux f n ((x :: xs).drop n)

/-- The batches of the `for (let i = 0; i < len; i += BATCH_SIZE)` loop. -/
def chunks {α : Type} (n : Nat) (l : List α) : List (List α) :=
  chunksAux l.length n l

/-- Everything observable about one aggregation pass: the emitted rows, the
cumulative progress reports, and whether the top-level catch halted it. -/
structure AggOutput where
  rows : List Row
  progress : List (Nat × Nat)
  halted : Bool
deriving DecidableEq

/-- The batch loop of `initDashboard`: batches run sequentially; a rejected
batch is caught at top level, which stops all further processing; otherwise
the batch's rows are appended in captured order and cumulative progress
`(Math.min(i + batch.length, total), total)` is reported. -/
def runBatchLoop (parseDate : String → ℚ) (now : ℚ) (env : ToolConfig → ToolNet)
    (total : Nat) : List (List ToolConfig) → Nat → AggOutput
  | [], _ => ⟨[], [], false⟩
  | batch :: rest, done =>
    match runBatchResults env batch with
    | .error _ => ⟨[], [], true⟩
    | .ok results =>
      let rows := results.filterMap fun r => processTool parseDate now r.1 r.2.1 r.2.2.1 r.2.2.2
      let done2 := done + batch.length
      let tail := runBatchLoop parseDate now env total rest done2
      ⟨rows ++ tail.rows, (min done2 total, total) :: tail.progress, tail.halted⟩

/-- The aggregation loop of `initDashboard` (lines 198-297 of src/script.js);
category enumeration and DOM rendering are outside the model. -/
def initDashboard (parseDate : String → ℚ) (now : ℚ) (env : ToolConfig → ToolNet)
    (tools : List ToolConfig) : AggOutput :=
  runBatchLoop parseDate now env tools.length (chunks BATCH_SIZE tools) 0

/-- The decoded lifecycle response of a non-thrown fetch. -/
def decodeLife : LifeNet → Except Unit LifeProduct
  | .okBody p => .ok p
  | .notOk => .error ()
  | .threw => .error ()

/-- The row an environment yields for one tool when its batch settles. -/
def rowOf (parseDate : String → ℚ) (now : ℚ) (env : ToolConfig → ToolNet)
    (t : ToolConfig) : Option Row :=
  processTool parseDate now t (decodeLife (env t).life)
    (fetchOSVVulnerabilities t.current (env t).osv)
    (fetchNVDVulnerabilities t.current (env t).nvd)

/-- Expected cumulative progress reports for a chunk list. -/
def progressOf (total : Nat) : List (List ToolConfig) → Nat → List (Nat × Nat)
  | [], _ => []
  | b :: rest, done => (min (done + b.length) total, total) :: progressOf total rest (done + b.length)

/-! ## Claim-side descriptions of the fixed-version scan

The claims speak of "the literal first-found bound in nested scan order".
These lists collect, in nested scan order, every truthy fixed bound of a
record; the claims are then stated against the head of the list. -/

/-- The fixed version an event contributes: its `fixed` field when truthy. -/
def truthyFix (e : RangeEvent) : Option String :=
  match e.fixed with
  | some s => if s = "" then none else some s
  | none => none

/-- All truthy fixed versions of one range, in order. -/
def rangeFixes (r : VulnRange) : List String :=
  (r.events.getD []).filterMap truthyFix

/-- All truthy fixed versions of an `affected` list, in nested scan order. -/
def osvFixCandidates (l : List AffectedEntry) : List String :=
  (l.map fun a => ((a.ranges.getD []).map rangeFixes).flatten).flatten

/-- The bound a cpe match contributes: `versionEndExcluding` when truthy. -/
def truthyBound (m : CpeMatch) : Option String :=
  match m.versionEndExcluding with
  | some s => if s = "" then none else some s
  | none => none

/-- All truthy upper bounds of one node, in order. -/
def nodeBounds (n : CveConfigNode) : List String :=
  (n.cpeMatch.getD []).filterMap truthyBound

/-- All truthy upper bounds of a `configurations` list, in nested scan order. -/
def nvdBoundCandidates (cs : List CveConfig) : List String :=
  (cs.map fun c => ((c.nodes.getD []).map nodeBounds).flatten).flatten

/-- Every configuration entry carries a `nodes` field (the shape on which
the NVD scan cannot throw). -/
def allNodesPresent (cs : List CveConfig) : Bool :=
  cs.all fun c => c.nodes.isSome

/-! ## Concrete records used as counterexamples and witnesses -/

/-- A record whose first truthy vendor field is the number 5 while the next
field is the string "high". -/
def c1Vuln : OSVVuln := ⟨some ⟨.jnum 5, .jstr "high", .jundef, .jundef, .jundef⟩, none, none⟩

/-- A record whose only label field is a padded mixed-case "Critical", next
to a low numeric score. -/
def c1WVuln : OSVVuln := ⟨some ⟨.jundef, .jstr " CriTical ", .jundef, .jundef, .jstr "1.0"⟩, none, none⟩

/-- A CVE with no `configurations` data at all. -/
def c2Cve : Cve := ⟨none, none⟩

/-- An OSV record whose first fixed event sits behind one without a fix. -/
def c2WOsv : OSVVuln := ⟨none, none, some [⟨some [⟨some [⟨none⟩, ⟨some "2.0"⟩]⟩]⟩]⟩

/-- A CVE with one configuration carrying an upper bound. -/
def c2WCve : Cve := ⟨none, some [⟨some [⟨some [⟨some "1.2.3"⟩]⟩]⟩]⟩

/-- A severity list holding a CVSS v2 entry (score 3) before a CVSS v3 entry
(score 9.8), with no vendor label fields. -/
def c5Vuln : OSVVuln :=
  ⟨none, some [⟨some "CVSS_V2", .jnum 3⟩, ⟨some "CVSS_V3", .jnum (49/5)⟩], none⟩

/-- A CVE whose only metric carries a non-numeric `baseScore` string and no
severity label. -/
def c6Cve : Cve := ⟨some ⟨some [⟨some ⟨none, .jstr "garbage"⟩, none⟩], none, none⟩, none⟩

/-- A CVE with one configuration entry that lacks a `nodes` field. -/
def c7Cve : Cve := ⟨none, some [⟨none⟩]⟩

/-- A date environment mapping every string to the epoch. -/
def pd0 : String → ℚ := fun _ => 0

/-- A date environment placing the string "d45" forty-five days after the
epoch. -/
def pdW : String → ℚ := fun s => if s = "d45" then 3888000000 else 0

/-- The release list of the spec's lifecycle example: an EOL 5.2 and a 5.1
whose EOL date is 45 days out. -/
def releasesW : List Release :=
  [⟨"5.2", "2020-01-01", none, true⟩, ⟨"5.1", "2019-01-01", some "d45", false⟩]

/-- A minimal lifecycle product. -/
def prod0 : LifeProduct := ⟨"tooling", "Tool", [⟨"1", "2024-01-01", none, false⟩]⟩

/-- Two configured tools. -/
def tools2 : List ToolConfig := [⟨"a", "1"⟩, ⟨"b", "1"⟩]

/-- Six configured tools: two batches of five and one. -/
def tools6 : List ToolConfig :=
  [⟨"a", "1"⟩, ⟨"b", "1"⟩, ⟨"c", "1"⟩, ⟨"d", "1"⟩, ⟨"e", "1"⟩, ⟨"f", "1"⟩]

/-- Twelve configured tools: batches of five, five and two. -/
def tools12 : List ToolConfig :=
  [⟨"t01", "1"⟩, ⟨"t02", "1"⟩, ⟨"t03", "1"⟩, ⟨"t04", "1"⟩, ⟨"t05", "1"⟩, ⟨"t06", "1"⟩,
   ⟨"t07", "1"⟩, ⟨"t08", "1"⟩, ⟨"t09", "1"⟩, ⟨"t10", "1"⟩, ⟨"t11", "1"⟩, ⟨"t12", "1"⟩]

/-- An environment in which tool "a"'s lifecycle body fails to decode and
every other fetch succeeds. -/
def env9 : ToolConfig → ToolNet := fun t =>
  if t.name = "a" then ⟨.threw, .parsed none, .okBody none⟩
  else ⟨.okBody prod0, .parsed none, .okBody none⟩

/-- An environment in which tool "a"'s lifecycle response is non-ok and
every other fetch succeeds. -/
def env9w : ToolConfig → ToolNet := fun t =>
  if t.name = "a" then ⟨.notOk, .parsed none, .okBody none⟩
  else ⟨.okBody prod0, .parsed none, .okBody none⟩

/-- A tool whose installed version is present. -/
def c8Item : ToolConfig := ⟨"tool", "1"⟩

/-! ## Scan lemmas: the loops return the head of the candidate list -/

/-- The `find`-then-read of a range's events equals the head of its truthy
fixed versions. -/
theorem find_truthyFix (es : List RangeEvent) :
    ((es.find? fun e => strTruthy e.fixed).bind RangeEvent.fixed) =
      (es.filterMap truthyFix).head? := by
  induction es with
  | nil => rfl
  | cons e rest ih =>
    cases hf : e.fixed with
    | none =>
      have hp : strTruthy e.fixed = false := by rw [hf]; rfl
      rw [List.find?_cons_of_neg _ (by simp [hp]), List.filterMap_cons]
      simp only [truthyFix, hf]
      exact ih
    | some s =>
      by_cases hs : s = ""
      · subst hs
        have hp : strTruthy e.fixed = false := by rw [hf]; rfl
        rw [List.find?_cons_of_neg _ (by simp [hp]), List.filterMap_cons]
        simp only [truthyFix, hf, if_pos rfl]
        exact ih
      · have hp : strTruthy e.fixed = true := by rw [hf]; simp [strTruthy, hs]
        rw [List.find?_cons_of_pos _ (by simp [hp]), List.filterMap_cons]
        simp [truthyFix, hf, hs]

/-- `scanRanges` returns the head of the candidates of its ranges. -/
theorem scanRanges_eq (rs : List VulnRange) :
    scanRanges rs = ((rs.map rangeFixes).flatten).head? := by
  induction rs with
  | nil => rfl
  | cons r rest ih =>
    have h := find_truthyFix (r.events.getD [])
    show (match (r.events.getD []).find? fun e => strTruthy e.fixed with
      | some e => e.fixed
      | none => scanRanges rest) = (((r :: rest).map rangeFixes).flatten).head?
    rw [List.map_cons, List.flatten_cons]
    cases hfind : (r.events.getD []).find? fun e => strTruthy e.fixed with
    | none =>
      rw [hfind] at h
      have hnil : rangeFixes r = [] := by
        cases hrf : rangeFixes r with
        | nil => rfl
        | cons a as =>
          rw [rangeFixes] at hrf
          rw [hrf] at h
          exact absurd h.symm (by simp)
      simp only [hnil, List.nil_append]
      exact ih
    | some e =>
      have hpred : strTruthy e.fixed = true := by simpa using List.find?_some hfind
      rw [hfind, Option.some_bind] at h
      cases hrf : rangeFixes r with
      | nil =>
        exfalso
        rw [rangeFixes] at hrf
        rw [hrf] at h
        cases hfx : e.fixed with
        | none => rw [hfx] at hpred; exact absurd hpred (by simp [strTruthy])
        | some s => rw [hfx] at h; exact absurd h (by simp)
      | cons a as =>
        have hrf2 : List.filterMap truthyFix (r.events.getD []) = a :: as := hrf
        rw [hrf2] at h
        simp [hrf, h]

/-- `scanAffected` returns the head of the nested candidate list. -/
theorem scanAffected_eq (l : List AffectedEntry) :
    scanAffected l = (osvFixCandidates l).head? := by
  induction l with
  | nil => rfl
  | cons a rest ih =>
    show (match a.ranges with
      | none => scanAffected rest
      | some rs => match scanRanges rs with
        | some s => some s
        | none => scanAffected rest) = _
    unfold osvFixCandidates at ih ⊢
    rw [List.map_cons, List.flatten_cons]
    cases hr : a.ranges with
    | none => simp [ih]
    | some rs =>
      show (match scanRanges rs with
        | some s => some s
        | none => scanAffected rest) = _
      rw [scanRanges_eq rs]
      cases hc : ((rs.map rangeFixes).flatten) with
      | nil => simp [hc, ih]
      | cons x xs => simp [hc]

/-- `scanCpe` returns the head of the node's truthy bounds. -/
theorem scanCpe_eq (ms : List CpeMatch) :
    scanCpe ms = (ms.filterMap truthyBound).head? := by
  induction ms with
  | nil => rfl
  | cons m rest ih =>
    cases hv : m.versionEndExcluding with
    | none => simp [scanCpe, truthyBound, hv, ih, List.filterMap_cons]
    | some s =>
      by_cases hs : s = ""
      · subst hs
        simp [scanCpe, truthyBound, hv, ih, List.filterMap_cons]
      · simp [scanCpe, truthyBound, hv, hs, List.filterMap_cons]

/-- `scanNodes` returns the head of the configuration's candidate list. -/
theorem scanNodes_eq (ns : List CveConfigNode) :
    scanNodes ns = ((ns.map nodeBounds).flatten).head? := by
  induction ns with
  | nil => rfl
  | cons n rest ih =>
    show (match n.cpeMatch with
      | none => scanNodes rest
      | some ms => match scanCpe ms with
        | some s => some s
        | none => scanNodes rest) = _
    rw [List.map_cons, List.flatten_cons]
    cases hc : n.cpeMatch with
    | none => simp [nodeBounds, hc, ih]
    | some ms =>
      show (match scanCpe ms with
        | some s => some s
        | none => scanNodes rest) = _
      rw [scanCpe_eq ms]
      cases hb : ms.filterMap truthyBound with
      | nil => simp [nodeBounds, hc, hb, ih]
      | cons x xs => simp [nodeBounds, hc, hb]

/-- On configurations whose entries all carry `nodes`, `scanConfigs` cannot
throw and returns the head of the nested candidate list. -/
theorem scanConfigs_ok (cs : List CveConfig) (h : allNodesPresent cs = true) :
    scanConfigs cs = .ok ((nvdBoundCandidates cs).head?) := by
  induction cs with
  | nil => rfl
  | cons c rest ih =>
    rw [allNodesPresent, List.all_cons, Bool.and_eq_true] at h
    obtain ⟨h1, h2⟩ := h
    obtain ⟨ns, hns⟩ := Option.isSome_iff_exists.mp h1
    show (match c.nodes with
      | none => Except.error ()
      | some ns => match scanNodes ns with
        | some s => .ok (some s)
        | none => scanConfigs rest) = _
    unfold nvdBoundCandidates at ih ⊢
    rw [List.map_cons, List.flatten_cons, hns]
    show (match scanNodes ns with
      | some s => Except.ok (some s)
      | none => scanConfigs rest) = _
    rw [scanNodes_eq ns]
    cases hc : ((ns.map nodeBounds).flatten) with
    | nil => simp [hc, ih h2]
    | cons x xs => simp [hc]

/-! ## Claim C2 -/

/-- C2 counterexample: on a CVE with no `configurations` data at all, the
claim predicts the sentinel "None"; the code returns "Not Fixed". -/
theorem c2_counterexample :
    getNVDFixedVersion c2Cve = Except.ok "Not Fixed" ∧
    getNVDFixedVersion c2Cve ≠ Except.ok "None" := by
  constructor
  · rfl
  · intro h
    rw [show getNVDFixedVersion c2Cve = Except.ok "Not Fixed" from rfl] at h
    exact absurd (Except.ok.inj h) (by decide)

/-- C2 (amended): shape A returns "None" when `affected` is absent and
otherwise the head of the nested-scan candidate list, with "Not Fixed" when
that list is empty; shape B returns "Not Fixed" when `configurations` is
absent and otherwise (on records where every configuration carries `nodes`)
the head of its candidate list, with "Check NVD" when that list is empty;
both extractors are pure, so repeated calls agree. -/
theorem c2_corrected_sentinels (v : OSVVuln) (cve : Cve) :
    (v.affected = none → getFixedVersion v = "None") ∧
    (∀ l, v.affected = some l →
        getFixedVersion v = ((osvFixCandidates l).head?).getD "Not Fixed") ∧
    (cve.configurations = none → getNVDFixedVersion cve = .ok "Not Fixed") ∧
    (∀ cs, cve.configurations = some cs → allNodesPresent cs = true →
        getNVDFixedVersion cve = .ok (((nvdBoundCandidates cs).head?).getD "Check NVD")) ∧
    getFixedVersion v = getFixedVersion v ∧
    getNVDFixedVersion cve = getNVDFixedVersion cve := by
  refine ⟨?_, ?_, ?_, ?_, rfl, rfl⟩
  · intro h
    unfold getFixedVersion
    rw [h]
  · intro l h
    unfold getFixedVersion
    rw [h]
    show (match scanAffected l with
      | some s => s
      | none => "Not Fixed") = _
    rw [scanAffected_eq]
    cases (osvFixCandidates l).head? <;> rfl
  · intro h
    unfold getNVDFixedVersion
    rw [h]
  · intro cs h hall
    unfold getNVDFixedVersion
    rw [h]
    show (match scanConfigs cs with
      | .error e => Except.error e
      | .ok (some s) => .ok s
      | .ok none => .ok "Check NVD") = _
    rw [scanConfigs_ok cs hall]
    cases (nvdBoundCandidates cs).head? <;> rfl

/-- C2 witness: absent `affected` gives "None"; the nested scans return the
first bound; a bound-free configuration gives "Check NVD". -/
theorem c2_witness :
    getFixedVersion ⟨none, none, none⟩ = "None" ∧
    getFixedVersion c2WOsv = "2.0" ∧
    getNVDFixedVersion c2WCve = Except.ok "1.2.3" ∧
    getNVDFixedVersion ⟨none, some [⟨some []⟩]⟩ = Except.ok "Check NVD" := by
  have h1 := (c2_corrected_sentinels ⟨none, none, none⟩ c2WCve).1 rfl
  have h2 := (c2_corrected_sentinels c2WOsv c2WCve).2.1 _ rfl
  have h3 := (c2_corrected_sentinels c2WOsv c2WCve).2.2.2.1 _ rfl rfl
  have h4 := (c2_corrected_sentinels c2WOsv ⟨none, some [⟨some []⟩]⟩).2.2.2.1 _ rfl rfl
  refine ⟨h1, ?_, ?_, ?_⟩
  · rw [h2]; rfl
  · rw [h3]; rfl
  · rw [h4]; rfl

/-! ## Claim C1 -/

/-- C1 counterexample: the claim predicts that the first *present string*
field — here `priority = "high"` — is classified, giving "High"; the code
takes the first *truthy* field (`ubuntu_priority = 5`), finds it is not a
string, and falls through to "Unknown". -/
theorem c1_counterexample :
    getSeverityLabel c1Vuln = "Unknown" ∧ getSeverityLabel c1Vuln ≠ "High" := by
  constructor
  · rfl
  · decide

/-- C1 (amended): the normalizer takes the first truthy field of
`ubuntu_priority`, `priority`, `severity`, `level` in that order; when that
value is a string containing (after trimming and lowercasing) one of the
substrings "crit"/"high"/"med"/"low", checked in that order, it returns the
corresponding label, irrespective of any numeric score in the record. -/
theorem c1_corrected_label_path (v : OSVVuln) (s : String)
    (hp : firstPriority v = JVal.jstr s)
    (hm : containsSubstr (jsToLower (jsTrim s)) "crit" = true ∨
          containsSubstr (jsToLower (jsTrim s)) "high" = true ∨
          containsSubstr (jsToLower (jsTrim s)) "med" = true ∨
          containsSubstr (jsToLower (jsTrim s)) "low" = true) :
    getSeverityLabel v =
      (if containsSubstr (jsToLower (jsTrim s)) "crit" then "Critical"
       else if containsSubstr (jsToLower (jsTrim s)) "high" then "High"
       else if containsSubstr (jsToLower (jsTrim s)) "med" then "Medium"
       else "Low") := by
  have hs : s ≠ "" := by
    rintro rfl
    revert hm
    decide
  unfold getSeverityLabel
  rw [hp]
  unfold priorityLabel
  rcases hm with h | h | h | h <;>
    cases h1 : containsSubstr (jsToLower (jsTrim s)) "crit" <;>
    cases h2 : containsSubstr (jsToLower (jsTrim s)) "high" <;>
    cases h3 : containsSubstr (jsToLower (jsTrim s)) "med" <;>
    simp_all [hs]

/-- C1 witness: a padded mixed-case "Critical" label wins over the low
numeric vendor score. -/
theorem c1_witness : getSeverityLabel c1WVuln = "Critical" := by
  have h := c1_corrected_label_path c1WVuln " CriTical " rfl (Or.inl (by decide))
  rw [h]
  decide

/-! ## Claim C4 -/

/-- C4: with no usable severity label but a numeric score `s`, both shapes
classify `s ≥ 9` as Critical, `9 > s ≥ 7` as High, `7 > s ≥ 4` as Medium and
`s < 4` as Low; every tier boundary is inclusive on its lower bound. -/
theorem c4_score_tiers (v : OSVVuln) (cve : Cve) (s : ℚ) :
    (priorityLabel (firstPriority v) = none → osvScore v = some s →
      ((9 ≤ s → getSeverityLabel v = "Critical") ∧
       (7 ≤ s → s < 9 → getSeverityLabel v = "High") ∧
       (4 ≤ s → s < 7 → getSeverityLabel v = "Medium") ∧
       (s < 4 → getSeverityLabel v = "Low"))) ∧
    (nvdLabel cve = none → nvdScore cve = JVal.jnum s →
      ((9 ≤ s → getNVDSeverity cve = "Critical") ∧
       (7 ≤ s → s < 9 → getNVDSeverity cve = "High") ∧
       (4 ≤ s → s < 7 → getNVDSeverity cve = "Medium") ∧
       (s < 4 → getNVDSeverity cve = "Low"))) := by
  constructor
  · intro hl hsc
    have hres : getSeverityLabel v = classifyScore (some s) := by
      unfold getSeverityLabel
      rw [hl, hsc]
    refine ⟨fun h1 => ?_, fun h1 h2 => ?_, fun h1 h2 => ?_, fun h1 => ?_⟩ <;>
      rw [hres] <;> simp only [classifyScore] <;> split_ifs <;> first | rfl | linarith
  · intro hl hsc
    have hres : getNVDSeverity cve =
        (if jsGE (JVal.jnum s) 9 then "Critical"
         else if jsGE (JVal.jnum s) 7 then "High"
         else if jsGE (JVal.jnum s) 4 then "Medium"
         else "Low") := by
      unfold getNVDSeverity
      rw [hl, hsc]
      simp
    refine ⟨fun h1 => ?_, fun h1 h2 => ?_, fun h1 h2 => ?_, fun h1 => ?_⟩ <;>
      rw [hres] <;> simp only [jsGE, toNumber] <;> split_ifs <;>
        simp_all <;> linarith

/-- C4 witness: the boundary examples 9.5, 7.0, 4.0 and 3.9 land in
Critical, High, Medium and Low. -/
theorem c4_witness :
    getSeverityLabel ⟨none, some [⟨some "CVSS_V3", .jnum (19/2)⟩], none⟩ = "Critical" ∧
    getSeverityLabel ⟨none, some [⟨some "CVSS_V3", .jnum 7⟩], none⟩ = "High" ∧
    getSeverityLabel ⟨none, some [⟨some "CVSS_V3", .jnum 4⟩], none⟩ = "Medium" ∧
    getNVDSeverity ⟨some ⟨some [⟨some ⟨none, .jnum (39/10)⟩, none⟩], none, none⟩, none⟩ = "Low" := by
  refine ⟨?_, ?_, ?_, ?_⟩
  · exact ((c4_score_tiers ⟨none, some [⟨some "CVSS_V3", .jnum (19/2)⟩], none⟩ c2Cve (19/2)).1
      rfl rfl).1 (by norm_num)
  · exact (((c4_score_tiers ⟨none, some [⟨some "CVSS_V3", .jnum 7⟩], none⟩ c2Cve 7).1
      rfl rfl).2.1 (by norm_num) (by norm_num))
  · exact (((c4_score_tiers ⟨none, some [⟨some "CVSS_V3", .jnum 4⟩], none⟩ c2Cve 4).1
      rfl rfl).2.2.1 (by norm_num) (by norm_num))
  · exact (((c4_score_tiers c1Vuln ⟨some ⟨some [⟨some ⟨none, .jnum (39/10)⟩, none⟩], none, none⟩, none⟩
      (39/10)).2 rfl rfl).2.2.2 (by norm_num))

/-! ## Claim C5 -/

/-- C5 counterexample: with a CVSS v2 entry listed before a CVSS v3 entry and
no vendor label, the claim predicts the v3 score 9.8 (Critical); the code
takes the first matching entry, the v2 score 3.0, and returns "Low". -/
theorem c5_counterexample :
    getSeverityLabel c5Vuln = "Low" ∧ getSeverityLabel c5Vuln ≠ "Critical" := by
  constructor
  · rfl
  · decide

/-- C5 (amended): when no vendor field yields a label, the normalizer uses
the score of the *first* severity-list entry whose type is CVSS_V3 or
CVSS_V2 in list order (no preference of v3 over v2), and uses the vendor
numeric score field only when no such entry exists. -/
theorem c5_corrected_first_entry (v : OSVVuln)
    (hl : priorityLabel (firstPriority v) = none) :
    (∀ l e, v.severity = some l →
        l.find? (fun s => s.type == some "CVSS_V3" || s.type == some "CVSS_V2") = some e →
        getSeverityLabel v = classifyScore (parseFloat e.score)) ∧
    (osvCvssEntry v = none →
        getSeverityLabel v = classifyScore (parseFloat (dbSpecOf v).cvss_score)) := by
  constructor
  · intro l e hsev hfind
    unfold getSeverityLabel
    rw [hl]
    unfold osvScore osvCvssEntry
    rw [hsev]
    simp [hfind]
  · intro hnone
    unfold getSeverityLabel
    rw [hl]
    unfold osvScore
    rw [hnone]

/-- C5 witness: the v2-before-v3 list yields the v2 classification. -/
theorem c5_witness : getSeverityLabel c5Vuln = "Low" := by
  have h := (c5_corrected_first_entry c5Vuln rfl).1
    [⟨some "CVSS_V2", .jnum 3⟩, ⟨some "CVSS_V3", .jnum (49/5)⟩]
    ⟨some "CVSS_V2", .jnum 3⟩ rfl (by decide)
  rw [h]
  decide

/-! ## Claim C6 -/

/-- C6 counterexample: a present but non-numeric NVD `baseScore` fails every
tier comparison and yields "Low", where the claim predicts "Unknown". -/
theorem c6_counterexample :
    getNVDSeverity c6Cve = "Low" ∧ getNVDSeverity c6Cve ≠ "Unknown" := by
  constructor
  · rfl
  · decide

/-- C6 (amended): no severity path throws.  For shape A, a record with no
usable label and no parseable score (a malformed score string parses to NaN
and counts as absent) yields "Unknown".  For shape B, "Unknown" requires the
`baseScore` to be absent or null; a present non-numeric `baseScore` instead
falls through every tier comparison to "Low". -/
theorem c6_corrected_unknown (v : OSVVuln) (cve : Cve) :
    (priorityLabel (firstPriority v) = none → osvScore v = none →
        getSeverityLabel v = "Unknown") ∧
    (nvdLabel cve = none → (nvdScore cve = JVal.jundef ∨ nvdScore cve = JVal.jnull) →
        getNVDSeverity cve = "Unknown") ∧
    (∀ s, nvdLabel cve = none → nvdScore cve = JVal.jstr s →
        toNumberChars s.data = none → getNVDSeverity cve = "Low") := by
  refine ⟨?_, ?_, ?_⟩
  · intro hl hsc
    unfold getSeverityLabel
    rw [hl, hsc]
    rfl
  · intro hl hsc
    unfold getNVDSeverity
    rw [hl]
    rcases hsc with h | h <;> rw [h] <;> simp
  · intro s hl hsc hnan
    unfold getNVDSeverity
    rw [hl, hsc]
    simp [jsGE, toNumber, hnan]

/-- C6 witness: a record with neither label nor score is "Unknown" in both
shapes, and the non-numeric shape-B score gives "Low". -/
theorem c6_witness :
    getSeverityLabel ⟨none, none, none⟩ = "Unknown" ∧
    getNVDSeverity ⟨none, none⟩ = "Unknown" ∧
    getNVDSeverity c6Cve = "Low" := by
  have h := c6_corrected_unknown ⟨none, none, none⟩ ⟨none, none⟩
  have h6 := c6_corrected_unknown ⟨none, none, none⟩ c6Cve
  exact ⟨h.1 rfl rfl, h.2.1 rfl (Or.inl rfl), h6.2.2 "garbage" rfl rfl (by rfl)⟩

/-! ## Claim C7 -/

/-- C7: extraction is not total — on a CVE whose configuration entry lacks a
`nodes` field, `getNVDFixedVersion` iterates `config.nodes` without a guard
and throws, instead of falling through to a sentinel. -/
theorem c7_missing_nodes_throws : getNVDFixedVersion c7Cve = Except.error () := rfl

/-! ## Claim C3 -/

/-- C3: with no exactly-matching release the resolver returns
"Version Unknown"/"status-neutral"/null; on a matched EOL release it returns
"End of Life"/"status-eol" whatever the day count; otherwise a non-null day
count of at most 90 gives "EOL in N Days"/"status-warning" and anything else
gives "Maintained"/"status-active"; the day count is the ceiling of the
millisecond difference over one day, and a missing EOL date never yields the
warning classification. -/
theorem c3_status_resolution (pd : String → ℚ) (now : ℚ)
    (releases : List Release) (current : String) :
    (releases.find? (fun r => r.name == current) = none →
        resolveStatus pd now releases current = ⟨"Version Unknown", "status-neutral", none⟩) ∧
    (∀ cyc, releases.find? (fun r => r.name == current) = some cyc →
      ((cyc.isEol = true →
          (resolveStatus pd now releases current).statusText = "End of Life" ∧
          (resolveStatus pd now releases current).statusClass = "status-eol") ∧
       (cyc.isEol = false →
          ((∀ d, calculateDaysRemaining pd now cyc.eolFrom = some d → d ≤ 90 →
              resolveStatus pd now releases current =
                ⟨s!"EOL in {d} Days", "status-warning", some d⟩) ∧
           (∀ d, calculateDaysRemaining pd now cyc.eolFrom = some d → 90 < d →
              resolveStatus pd now releases current =
                ⟨"Maintained", "status-active", some d⟩) ∧
           (calculateDaysRemaining pd now cyc.eolFrom = none →
              resolveStatus pd now releases current =
                ⟨"Maintained", "status-active", none⟩))) ∧
       (∀ ds, cyc.eolFrom = some ds → ds ≠ "" →
          (resolveStatus pd now releases current).daysUntilEol =
            some ⌈(pd ds - now) / (86400000 : ℚ)⌉) ∧
       (cyc.eolFrom = none →
          (resolveStatus pd now releases current).statusClass ≠ "status-warning"))) := by
  constructor
  · intro h
    unfold resolveStatus
    rw [h]
  · intro cyc hfind
    have hres : resolveStatus pd now releases current =
        (match calculateDaysRemaining pd now cyc.eolFrom with
         | none =>
           if cyc.isEol then ⟨"End of Life", "status-eol", none⟩
           else ⟨"Maintained", "status-active", none⟩
         | some d =>
           if cyc.isEol then ⟨"End of Life", "status-eol", some d⟩
           else if d ≤ 90 then ⟨s!"EOL in {d} Days", "status-warning", some d⟩
           else ⟨"Maintained", "status-active", some d⟩) := by
      unfold resolveStatus
      rw [hfind]
    refine ⟨?_, ?_, ?_, ?_⟩
    · intro he
      rw [hres]
      cases calculateDaysRemaining pd now cyc.eolFrom <;> simp [he]
    · intro he
      refine ⟨?_, ?_, ?_⟩
      · intro d hd hle
        rw [hres, hd]
        simp [he, hle]
      · intro d hd hgt
        rw [hres, hd]
        simp [he]
        omega
      · intro hd
        rw [hres, hd]
        simp [he]
    · intro ds hds hne
      have hcd : calculateDaysRemaining pd now cyc.eolFrom =
          some ⌈(pd ds - now) / (86400000 : ℚ)⌉ := by
        rw [hds]
        show (if ds = "" then none else some ⌈(pd ds - now) / (86400000 : ℚ)⌉) = _
        rw [if_neg hne]
      rw [hres, hcd]
      cases cyc.isEol <;> simp <;> split_ifs <;> rfl
    · intro hd
      have hcd : calculateDaysRemaining pd now cyc.eolFrom = none := by rw [hd]; rfl
      rw [hres, hcd]
      cases cyc.isEol <;> simp

/-- C3 witness: the spec's example — current 5.1 with EOL 45 days out warns
with 45 days, current 5.2 is EOL, and an unknown 9.9 is neutral. -/
theorem c3_witness :
    resolveStatus pdW 0 releasesW "5.1" = ⟨"EOL in 45 Days", "status-warning", some 45⟩ ∧
    (resolveStatus pdW 0 releasesW "5.2").statusText = "End of Life" ∧
    (resolveStatus pdW 0 releasesW "5.2").statusClass = "status-eol" ∧
    resolveStatus pdW 0 releasesW "9.9" = ⟨"Version Unknown", "status-neutral", none⟩ := by
  have hfind51 : releasesW.find? (fun r => r.name == "5.1") =
      some ⟨"5.1", "2019-01-01", some "d45", false⟩ := rfl
  have hfind52 : releasesW.find? (fun r => r.name == "5.2") =
      some ⟨"5.2", "2020-01-01", none, true⟩ := rfl
  have hd : calculateDaysRemaining pdW 0 (some "d45") = some 45 := by
    show (if "d45" = "" then none else some ⌈(pdW "d45" - 0) / (86400000 : ℚ)⌉) = some 45
    rw [if_neg (by decide)]
    have hp : pdW "d45" = 3888000000 := by
      unfold pdW
      rw [if_pos rfl]
    rw [hp]
    have hq : ((3888000000 : ℚ) - 0) / 86400000 = ((45 : Int) : ℚ) := by norm_num
    rw [hq, Int.ceil_intCast]
  have h52 := ((c3_status_resolution pdW 0 releasesW "5.2").2 _ hfind52).1 rfl
  refine ⟨?_, h52.1, h52.2, (c3_status_resolution pdW 0 releasesW "9.9").1 rfl⟩
  have h := (((c3_status_resolution pdW 0 releasesW "5.1").2 _ hfind51).2.1 rfl).1 45 hd
    (by norm_num)
  rw [h]
  decide

/-! ## Driver lemmas -/

/-- A batch none of whose lifecycle fetches throws settles with each tool's
decoded triple, in the captured batch order. -/
theorem runBatchResults_ok (env : ToolConfig → ToolNet) (b : List ToolConfig)
    (h : ∀ t ∈ b, (env t).life ≠ LifeNet.threw) :
    runBatchResults env b = .ok (b.map fun t =>
      (t, decodeLife (env t).life, fetchOSVVulnerabilities t.current (env t).osv,
       fetchNVDVulnerabilities t.current (env t).nvd)) := by
  induction b with
  | nil => rfl
  | cons t rest ih =>
    have ht := h t (by simp)
    have hrest : ∀ x ∈ rest, (env x).life ≠ LifeNet.threw := fun x hx => h x (by simp [hx])
    cases hl : (env t).life with
    | threw => exact absurd hl ht
    | okBody p => simp [runBatchResults, hl, fetchLifecycle, ih hrest, decodeLife]
    | notOk => simp [runBatchResults, hl, fetchLifecycle, ih hrest, decodeLife]

/-- A batch containing a thrown lifecycle fetch rejects. -/
theorem runBatchResults_err (env : ToolConfig → ToolNet) (b : List ToolConfig)
    (h : ∃ t ∈ b, (env t).life = LifeNet.threw) :
    runBatchResults env b = .error () := by
  induction b with
  | nil => simp at h
  | cons t rest ih =>
    obtain ⟨x, hx, hthrew⟩ := h
    rcases List.mem_cons.mp hx with rfl | hx2
    · simp [runBatchResults, hthrew, fetchLifecycle]
    · cases hl : (env t).life with
      | threw => simp [runBatchResults, hl, fetchLifecycle]
      | okBody p => simp [runBatchResults, hl, fetchLifecycle, ih ⟨x, hx2, hthrew⟩]
      | notOk => simp [runBatchResults, hl, fetchLifecycle, ih ⟨x, hx2, hthrew⟩]

/-- When no lifecycle fetch throws, the batch loop runs every batch: its rows
are the per-tool rows in order and its progress reports are cumulative. -/
theorem runBatchLoop_ok (pd : String → ℚ) (now : ℚ) (env : ToolConfig → ToolNet)
    (total : Nat) (cl : List (List ToolConfig))
    (h : ∀ t ∈ cl.flatten, (env t).life ≠ LifeNet.threw) :
    ∀ done, runBatchLoop pd now env total cl done =
      ⟨(cl.flatten).filterMap (rowOf pd now env), progressOf total cl done, false⟩ := by
  induction cl with
  | nil => intro done; rfl
  | cons b rest ih =>
    intro done
    have hb : ∀ t ∈ b, (env t).life ≠ LifeNet.threw := by
      intro t ht
      exact h t (by simp [ht])
    have hrest : ∀ t ∈ rest.flatten, (env t).life ≠ LifeNet.threw := by
      intro t ht
      exact h t (by simp [ht])
    show (match runBatchResults env b with
      | .error _ => (⟨[], [], true⟩ : AggOutput)
      | .ok results =>
        let rows := results.filterMap
          fun r : ToolConfig × Except Unit LifeProduct × AdvResult OSVVuln × AdvResult Cve =>
            processTool pd now r.1 r.2.1 r.2.2.1 r.2.2.2
        let done2 := done + b.length
        let tail := runBatchLoop pd now env total rest done2
        ⟨rows ++ tail.rows, (min done2 total, total) :: tail.progress, tail.halted⟩) = _
    rw [runBatchResults_ok env b hb]
    show (⟨((b.map fun t =>
        (t, decodeLife (env t).life, fetchOSVVulnerabilities t.current (env t).osv,
         fetchNVDVulnerabilities t.current (env t).nvd)).filterMap
           fun r : ToolConfig × Except Unit LifeProduct × AdvResult OSVVuln × AdvResult Cve =>
             processTool pd now r.1 r.2.1 r.2.2.1 r.2.2.2) ++
        (runBatchLoop pd now env total rest (done + b.length)).rows,
      (min (done + b.length) total, total) ::
        (runBatchLoop pd now env total rest (done + b.length)).progress,
      (runBatchLoop pd now env total rest (done + b.length)).halted⟩ : AggOutput) = _
    rw [ih hrest (done + b.length), List.filterMap_map]
    show (⟨b.filterMap (rowOf pd now env) ++ (rest.flatten).filterMap (rowOf pd now env),
      (min (done + b.length) total, total) :: progressOf total rest (done + b.length),
      false⟩ : AggOutput) = _
    rw [← List.filterMap_append]
    rfl

/-- The fuel-driven chunking of the empty list is empty. -/
theorem chunksAux_nil {α : Type} (fuel n : Nat) : chunksAux fuel n ([] : List α) = [] := by
  cases fuel <;> rfl

/-- One unfolding step of the fuel-driven chunking. -/
theorem chunksAux_cons {α : Type} (fuel n : Nat) (l : List α) (h : l ≠ []) :
    chunksAux (fuel + 1) n l = l.take n :: chunksAux fuel n (l.drop n) := by
  cases l with
  | nil => exact absurd rfl h
  | cons x xs => rfl

/-- With enough fuel and a positive chunk size, chunking partitions the list. -/
theorem chunksAux_flatten {α : Type} (n : Nat) (hn : 0 < n) :
    ∀ (fuel : Nat) (l : List α), l.length ≤ fuel → (chunksAux fuel n l).flatten = l := by
  intro fuel
  induction fuel with
  | zero =>
    intro l hl
    have hnil : l = [] := List.eq_nil_of_length_eq_zero (Nat.le_zero.mp hl)
    rw [hnil]
    rfl
  | succ f ih =>
    intro l hl
    cases l with
    | nil => rfl
    | cons x xs =>
      have hlen : ((x :: xs).drop n).length ≤ f := by
        rw [List.length_drop, List.length_cons]
        rw [List.length_cons] at hl
        omega
      show ((x :: xs).take n :: chunksAux f n ((x :: xs).drop n)).flatten = x :: xs
      rw [List.flatten_cons, ih ((x :: xs).drop n) hlen]
      exact List.take_append_drop n (x :: xs)

/-- The batches partition the configured list. -/
theorem chunks_flatten {α : Type} (n : Nat) (hn : 0 < n) (l : List α) :
    (chunks n l).flatten = l :=
  chunksAux_flatten n hn l.length l le_rfl

/-- Mapping the row name over all-successful rows recovers the tool names. -/
theorem map_name_filterMap (f : ToolConfig → Option Row) (l : List ToolConfig)
    (h : ∀ t, ∃ r, f t = some r ∧ r.name = t.name) :
    (l.filterMap f).map Row.name = l.map ToolConfig.name := by
  induction l with
  | nil => rfl
  | cons t rest ih =>
    obtain ⟨r, hr, hn⟩ := h t
    rw [List.filterMap_cons, hr]
    simp [hn, ih]

/-- The three batches cut from a twelve-element list. -/
theorem chunks_twelve {α : Type} (l : List α) (h : l.length = 12) :
    chunks 5 l = [l.take 5, (l.drop 5).take 5, l.drop 10] := by
  have h0 : l ≠ [] := by
    intro hnil
    rw [hnil] at h
    simp at h
  have h5 : l.drop 5 ≠ [] := by
    intro hnil
    have := congrArg List.length hnil
    rw [List.length_drop, h] at this
    simp at this
  have h10 : (l.drop 5).drop 5 ≠ [] := by
    intro hnil
    have := congrArg List.length hnil
    rw [List.length_drop, List.length_drop, h] at this
    simp at this
  have hfuel : chunks 5 l = chunksAux 12 5 l := by rw [chunks, h]
  rw [hfuel, chunksAux_cons 11 5 l h0, chunksAux_cons 10 5 (l.drop 5) h5,
    chunksAux_cons 9 5 ((l.drop 5).drop 5) h10]
  have hd : ((l.drop 5).drop 5).drop 5 = [] := by
    apply List.drop_of_length_le
    rw [List.length_drop, List.length_drop, h]
    omega
  rw [hd, chunksAux_nil]
  have ht : ((l.drop 5).drop 5).take 5 = (l.drop 5).drop 5 := by
    apply List.take_of_length_le
    rw [List.length_drop, List.length_drop, h]
    omega
  rw [ht, List.drop_drop]

/-! ## Claim C8 -/

/-- C8: with a decoded lifecycle body, a thrown source-A (OSV) fetch still
yields a row, with zero shown OSV advisories and the vulnerability flag
decided by source B alone; in general the flag is the disjunction of the two
per-source found flags, the `'Err'` sentinel is never found, and a records
array is found exactly when it is non-empty. -/
theorem c8_fault_isolation (pd : String → ℚ) (now : ℚ) (item : ToolConfig)
    (p : LifeProduct) (nvdNet : NVDNet) (hv : item.current ≠ "") :
    (∃ r, processTool pd now item (.ok p)
        (fetchOSVVulnerabilities item.current OSVNet.threw)
        (fetchNVDVulnerabilities item.current nvdNet) = some r ∧
      r.osvShown = 0 ∧
      r.hasAnyVulns = vulnsFound (fetchNVDVulnerabilities item.current nvdNet)) ∧
    (∀ (osv : AdvResult OSVVuln) (nvd : AdvResult Cve) r,
        processTool pd now item (.ok p) osv nvd = some r →
        r.hasAnyVulns = (vulnsFound osv || vulnsFound nvd)) ∧
    vulnsFound (AdvResult.err : AdvResult OSVVuln) = false ∧
    (∀ l : List OSVVuln, (vulnsFound (AdvResult.records l) = true ↔ l ≠ [])) := by
  have hosv : fetchOSVVulnerabilities item.current OSVNet.threw = AdvResult.err := by
    unfold fetchOSVVulnerabilities
    rw [if_neg hv]
  refine ⟨?_, ?_, rfl, ?_⟩
  · refine ⟨⟨item.name, resolveStatus pd now p.releases item.current, 0,
      (if vulnsFound (fetchNVDVulnerabilities item.current nvdNet) then
        vulnsCount (fetchNVDVulnerabilities item.current nvdNet) else 0),
      vulnsFound (fetchNVDVulnerabilities item.current nvdNet)⟩, ?_, rfl, rfl⟩
    rw [hosv]
    rfl
  · intro osv nvd r h
    have h2 : (⟨item.name, resolveStatus pd now p.releases item.current,
        (if vulnsFound osv then vulnsCount osv else 0),
        (if vulnsFound nvd then vulnsCount nvd else 0),
        vulnsFound osv || vulnsFound nvd⟩ : Row) = r := Option.some.inj h
    rw [← h2]
  · intro l
    simp [vulnsFound, List.length_pos]

/-- C8 witness: OSV fetch thrown, NVD returning one CVE — the row shows zero
OSV advisories and is flagged vulnerable from source B alone. -/
theorem c8_witness :
    (processTool pd0 0 c8Item (.ok prod0)
        (fetchOSVVulnerabilities c8Item.current OSVNet.threw)
        (fetchNVDVulnerabilities c8Item.current (NVDNet.okBody (some [c2Cve])))).map
      Row.osvShown = some 0 ∧
    (processTool pd0 0 c8Item (.ok prod0)
        (fetchOSVVulnerabilities c8Item.current OSVNet.threw)
        (fetchNVDVulnerabilities c8Item.current (NVDNet.okBody (some [c2Cve])))).map
      Row.hasAnyVulns = some true := by
  obtain ⟨r, hr, h0, hvb⟩ :=
    (c8_fault_isolation pd0 0 c8Item prod0 (NVDNet.okBody (some [c2Cve])) (by decide)).1
  constructor
  · rw [hr]
    simp [h0]
  · rw [hr]
    show some r.hasAnyVulns = some true
    rw [hvb]
    decide

/-! ## Claim C9 -/

/-- C9 counterexample: tool "a"'s lifecycle body fails to decode.  The claim
predicts only "a" is skipped and the other five tools (one in a later batch)
are still processed — per-tool processing of the rest would yield five rows —
but the run halts with no rows at all. -/
theorem c9_counterexample :
    initDashboard pd0 0 env9 tools6 = ⟨[], [], true⟩ ∧
    (tools6.filterMap (rowOf pd0 0 env9)).length = 5 := by
  constructor
  · rfl
  · rfl

/-- C9 (amended): a non-success lifecycle HTTP response skips only that tool
— with no thrown lifecycle fetch the run completes, its rows are the per-tool
rows of the whole configuration in order, a non-ok tool contributes none and
a decoded tool contributes one — but a lifecycle *decoding* error rejects its
batch and the top-level catch halts the run: a throw inside the first batch
leaves no rows at all. -/
theorem c9_corrected_halt (pd : String → ℚ) (now : ℚ) (env : ToolConfig → ToolNet)
    (tools : List ToolConfig) :
    ((∀ t ∈ tools, (env t).life ≠ LifeNet.threw) →
      (initDashboard pd now env tools).halted = false ∧
      (initDashboard pd now env tools).rows = tools.filterMap (rowOf pd now env) ∧
      (∀ t, (env t).life = LifeNet.notOk → rowOf pd now env t = none) ∧
      (∀ t p, (env t).life = LifeNet.okBody p → rowOf pd now env t ≠ none)) ∧
    ((∃ t ∈ tools.take BATCH_SIZE, (env t).life = LifeNet.threw) →
      initDashboard pd now env tools = ⟨[], [], true⟩) := by
  constructor
  · intro h
    have hflat : ∀ t ∈ (chunks BATCH_SIZE tools).flatten, (env t).life ≠ LifeNet.threw := by
      rw [chunks_flatten BATCH_SIZE (by decide) tools]
      exact h
    have hrun := runBatchLoop_ok pd now env tools.length (chunks BATCH_SIZE tools) hflat 0
    unfold initDashboard
    rw [hrun, chunks_flatten BATCH_SIZE (by decide) tools]
    refine ⟨rfl, rfl, ?_, ?_⟩
    · intro t ht
      unfold rowOf
      rw [ht]
      rfl
    · intro t p hp hcontra
      unfold rowOf at hcontra
      rw [hp] at hcontra
      simp [decodeLife, processTool] at hcontra
  · intro hex
    obtain ⟨t, ht, hthrew⟩ := hex
    cases tools with
    | nil => simp at ht
    | cons x xs =>
      have hch : chunks BATCH_SIZE (x :: xs) =
          ((x :: xs).take BATCH_SIZE) ::
            chunksAux xs.length BATCH_SIZE ((x :: xs).drop BATCH_SIZE) := rfl
      unfold initDashboard
      rw [hch]
      show (match runBatchResults env ((x :: xs).take BATCH_SIZE) with
        | .error _ => (⟨[], [], true⟩ : AggOutput)
        | .ok results =>
          let rows := results.filterMap
            fun r : ToolConfig × Except Unit LifeProduct × AdvResult OSVVuln × AdvResult Cve =>
              processTool pd now r.1 r.2.1 r.2.2.1 r.2.2.2
          let done2 := 0 + ((x :: xs).take BATCH_SIZE).length
          let tail := runBatchLoop pd now env (x :: xs).length
            (chunksAux xs.length BATCH_SIZE ((x :: xs).drop BATCH_SIZE)) done2
          ⟨rows ++ tail.rows, (min done2 (x :: xs).length, (x :: xs).length) :: tail.progress,
            tail.halted⟩) = _
      rw [runBatchResults_err env _ ⟨t, ht, hthrew⟩]

/-- C9 witness: with tool "a" answering non-ok and tool "b" decoding, the run
completes and the single row is tool "b"'s. -/
theorem c9_witness :
    (initDashboard pd0 0 env9w tools2).halted = false ∧
    (initDashboard pd0 0 env9w tools2).rows.map Row.name = ["b"] := by
  have h := (c9_corrected_halt pd0 0 env9w tools2).1 (by decide)
  refine ⟨h.1, ?_⟩
  rw [h.2.1]
  rfl

/-! ## Claim C10 -/

/-- C10: on twelve configured tools with batch size five and no lifecycle
failure, the driver runs exactly three batches of sizes 5, 5, 2, reports the
cumulative progress pairs (5,12), (10,12), (12,12) in that order, and emits
its rows in configured-list order (one per tool). -/
theorem c10_batching (pd : String → ℚ) (now : ℚ) (envp : ToolConfig → LifeProduct)
    (osvn : ToolConfig → OSVNet) (nvdn : ToolConfig → NVDNet)
    (tools : List ToolConfig) (h12 : tools.length = 12) :
    ((chunks BATCH_SIZE tools).map List.length = [5, 5, 2]) ∧
    (initDashboard pd now (fun t => ⟨.okBody (envp t), osvn t, nvdn t⟩) tools).progress =
      [(5, 12), (10, 12), (12, 12)] ∧
    (initDashboard pd now (fun t => ⟨.okBody (envp t), osvn t, nvdn t⟩) tools).rows.map
      Row.name = tools.map ToolConfig.name ∧
    (initDashboard pd now (fun t => ⟨.okBody (envp t), osvn t, nvdn t⟩) tools).halted =
      false := by
  have hch := chunks_twelve tools h12
  have hl1 : (tools.take 5).length = 5 := by
    rw [List.length_take, h12]
    omega
  have hl2 : ((tools.drop 5).take 5).length = 5 := by
    rw [List.length_take, List.length_drop, h12]
    omega
  have hl3 : (tools.drop 10).length = 2 := by
    rw [List.length_drop, h12]
  have henv : ∀ t ∈ (chunks BATCH_SIZE tools).flatten,
      ((fun t => (⟨.okBody (envp t), osvn t, nvdn t⟩ : ToolNet)) t).life ≠ LifeNet.threw := by
    intro t _
    simp
  have hrun := runBatchLoop_ok pd now (fun t => ⟨.okBody (envp t), osvn t, nvdn t⟩)
    tools.length (chunks BATCH_SIZE tools) henv 0
  refine ⟨?_, ?_, ?_, ?_⟩
  · show (chunks 5 tools).map List.length = [5, 5, 2]
    rw [hch]
    simp [hl1, hl2, hl3]
  · unfold initDashboard
    rw [hrun]
    show progressOf tools.length (chunks BATCH_SIZE tools) 0 = _
    show progressOf tools.length (chunks 5 tools) 0 = _
    rw [hch, h12]
    simp [progressOf, hl1, hl2, hl3]
  · unfold initDashboard
    rw [hrun]
    show ((chunks BATCH_SIZE tools).flatten.filterMap
      (rowOf pd now fun t => ⟨.okBody (envp t), osvn t, nvdn t⟩)).map Row.name = _
    rw [chunks_flatten BATCH_SIZE (by decide) tools]
    exact map_name_filterMap _ tools fun t =>
      ⟨⟨t.name, resolveStatus pd now (envp t).releases t.current,
        (if vulnsFound (fetchOSVVulnerabilities t.current (osvn t)) then
          vulnsCount (fetchOSVVulnerabilities t.current (osvn t)) else 0),
        (if vulnsFound (fetchNVDVulnerabilities t.current (nvdn t)) then
          vulnsCount (fetchNVDVulnerabilities t.current (nvdn t)) else 0),
        vulnsFound (fetchOSVVulnerabilities t.current (osvn t)) ||
          vulnsFound (fetchNVDVulnerabilities t.current (nvdn t))⟩, rfl, rfl⟩
  · unfold initDashboard
    rw [hrun]

/-- C10 witness: a concrete twelve-tool configuration with all fetches
succeeding reports (5,12), (10,12), (12,12) and emits the twelve rows in
configured order. -/
theorem c10_witness :
    (initDashboard pd0 0
      (fun _ => ⟨.okBody prod0, OSVNet.parsed none, NVDNet.okBody none⟩) tools12).progress =
      [(5, 12), (10, 12), (12, 12)] ∧
    (initDashboard pd0 0
      (fun _ => ⟨.okBody prod0, OSVNet.parsed none, NVDNet.okBody none⟩) tools12).rows.map
      Row.name = tools12.map ToolConfig.name := by
  have h := c10_batching pd0 0 (fun _ => prod0) (fun _ => OSVNet.parsed none)
    (fun _ => NVDNet.okBody none) tools12 (by rfl)
  exact ⟨h.2.1, h.2.2.1⟩

end PatchTracker
